import Mathlib

unseal Rat.mul Rat.add Rat.sub Rat.inv Rat.ofScientific

/-!
Shallow embedding of the stock-forecasting core of the vyapar-mcp repository:
the time-series utilities (moving average, day-of-week seasonality, trend
detection, confidence scoring, stock-needs prediction) and the forecasting
service built on them (per-product prediction, reorder-rule defaults, batch
restock recommendations).

Numeric conventions: JS numbers are embedded as exact rationals wherever the
source computes with field operations only; the single square root in the
confidence computation is embedded with `Real.sqrt`, so confidence values live
in `ℝ`. Dates are embedded at day granularity as integers; the JS
`Date.getDay()` weekday of a day index `d` is `(d % 7).toNat`, and the system
clock reads (`new Date()`, `Date.now()`) become an explicit `today`/`now`
parameter threaded through the definitions.
-/

namespace Vyapar

/-- Embedding of the `SalesDataPoint` interface: `date` is a day index and
`quantity` the number of units sold that day. -/
structure SalesDataPoint where
  date : ℤ
  quantity : ℚ
deriving DecidableEq

/-- Embedding of `Date.getDay()` for a day index: its weekday in `0..6`. -/
def dayOfWeek (d : ℤ) : ℕ := (d % 7).toNat

/-- The window `data.slice(-windowSize)` of the most recent points used by the
moving average (for any `windowSize ≥ 1`). -/
def recentWindow (data : List SalesDataPoint) (windowSize : ℕ) : List SalesDataPoint :=
  data.drop (data.length - windowSize)

/-- Embedding of `calculateMovingAverage`: mean quantity of the last
`windowSize` points, `0` for an empty series. -/
def calculateMovingAverage (data : List SalesDataPoint) (windowSize : ℕ) : ℚ :=
  if data.length = 0 then 0
  else
    let recentData := recentWindow data windowSize
    ((recentData.map (·.quantity)).sum) / (recentData.length : ℚ)

/-- Total quantity sold on weekday `i` (the `dayTotals` accumulator of
`calculateSeasonalFactor`). -/
def dayTotal (data : List SalesDataPoint) (i : ℕ) : ℚ :=
  (((data.filter (fun p => dayOfWeek p.date = i)).map (·.quantity)).sum)

/-- Number of points on weekday `i` (the `dayCounts` accumulator of
`calculateSeasonalFactor`). -/
def dayCount (data : List SalesDataPoint) (i : ℕ) : ℕ :=
  (data.filter (fun p => dayOfWeek p.date = i)).length

/-- Mean quantity on weekday `i`, `0` for a weekday with no points (the
`dayAverages` array of `calculateSeasonalFactor`). -/
def dayAverage (data : List SalesDataPoint) (i : ℕ) : ℚ :=
  if 0 < dayCount data i then dayTotal data i / (dayCount data i : ℚ) else 0

/-- Embedding of `calculateSeasonalFactor`: requires at least 14 points, else
`1.0`; otherwise the ratio of the mean for the weekday of `today` to the mean
of the seven weekday means, guarded to `1.0` when the latter is not positive.
The JS source reads `today` from `new Date().getDay()`; it is an explicit
parameter here. -/
def calculateSeasonalFactor (data : List SalesDataPoint) (today : ℤ) : ℚ :=
  if data.length < 14 then 1
  else
    let overallAvg := (((List.range 7).map (dayAverage data)).sum) / 7
    let todayAvg := dayAverage data (dayOfWeek today)
    if 0 < overallAvg then todayAvg / overallAvg else 1

/-- Mean of all quantities of the series (the `avg` of
`calculateConfidence`). -/
def seriesMean (data : List SalesDataPoint) : ℚ :=
  ((data.map (·.quantity)).sum) / (data.length : ℚ)

/-- Population variance of the quantities (the `variance` of
`calculateConfidence`). -/
def seriesVariance (data : List SalesDataPoint) : ℚ :=
  ((data.map (fun p => (p.quantity - seriesMean data) ^ 2)).sum) / (data.length : ℚ)

/-- The `stdDev` of `calculateConfidence`: square root of the variance. -/
noncomputable def seriesStdDev (data : List SalesDataPoint) : ℝ :=
  Real.sqrt ((seriesVariance data : ℚ) : ℝ)

/-- The `coefficientOfVariation` of `calculateConfidence`: `stdDev / avg`,
guarded to `1` when the mean is not positive. -/
noncomputable def coefficientOfVariation (data : List SalesDataPoint) : ℝ :=
  if 0 < seriesMean data then seriesStdDev data / ((seriesMean data : ℚ) : ℝ) else 1

/-- Embedding of `calculateConfidence`: tiered by sample count, and for 30 or
more points a clamp of `0.95 - CV * 0.35` into `[0.6, 0.95]`. -/
noncomputable def calculateConfidence (data : List SalesDataPoint) : ℝ :=
  if data.length = 0 then 0.1
  else if data.length < 7 then 0.4
  else if data.length < 30 then 0.6
  else max 0.6 (min 0.95 (0.95 - coefficientOfVariation data * 0.35))

/-- The three trend labels of `detectTrend`. -/
inductive Trend where
  | increasing
  | decreasing
  | stable
deriving DecidableEq

/-- Mean quantity of the first half of the series, `data.slice(0,
floor(length / 2))` (the `firstAvg` of `detectTrend`). -/
def firstHalfAvg (data : List SalesDataPoint) : ℚ :=
  let firstHalf := data.take (data.length / 2)
  ((firstHalf.map (·.quantity)).sum) / (firstHalf.length : ℚ)

/-- Mean quantity of the second half of the series (the `secondAvg` of
`detectTrend`). -/
def secondHalfAvg (data : List SalesDataPoint) : ℚ :=
  let secondHalf := data.drop (data.length / 2)
  ((secondHalf.map (·.quantity)).sum) / (secondHalf.length : ℚ)

/-- The divisor of the relative-change division
`(secondAvg - firstAvg) / firstAvg` in `detectTrend`. That division is
executed whenever the series has at least 7 points (`none` records that the
early `stable` return was taken and no division happens). The source does not
guard it: the divisor is `firstAvg`, which can be `0`. -/
def trendChangeDivisor (data : List SalesDataPoint) : Option ℚ :=
  if data.length < 7 then none else some (firstHalfAvg data)

/-- Embedding of `detectTrend`: fewer than 7 points is `stable`; otherwise the
relative change of the second-half mean over the first-half mean is compared
with `±0.15`. When `firstAvg = 0` the JS division yields `±Infinity` or `NaN`,
so the two comparisons resolve by the sign of the numerator; that IEEE
behaviour is embedded by the explicit `firstAvg = 0` case below. -/
def detectTrend (data : List SalesDataPoint) : Trend :=
  if data.length < 7 then .stable
  else
    let firstAvg := firstHalfAvg data
    let secondAvg := secondHalfAvg data
    if firstAvg = 0 then
      if 0 < secondAvg - firstAvg then .increasing
      else if secondAvg - firstAvg < 0 then .decreasing
      else .stable
    else
      let change := (secondAvg - firstAvg) / firstAvg
      if (0.15 : ℚ) < change then .increasing
      else if change < -0.15 then .decreasing
      else .stable

/-- The `trendFactor` multiplier chosen in `predictStockNeeds`. -/
def trendFactor : Trend → ℚ
  | .increasing => 1.15
  | .decreasing => 0.85
  | .stable => 1

/-- The `adjustedDailySales` of `predictStockNeeds`: moving average times
seasonal factor times trend factor. -/
def adjustedDailySales (data : List SalesDataPoint) (today : ℤ) : ℚ :=
  calculateMovingAverage data 7 * calculateSeasonalFactor data today
    * trendFactor (detectTrend data)

/-- The `daysUntilStockout` of `predictStockNeeds`: stock divided by the
adjusted daily rate, or the `9999` sentinel when the rate is not positive. -/
def daysUntilStockout (data : List SalesDataPoint) (currentStock : ℚ) (today : ℤ) : ℚ :=
  if 0 < adjustedDailySales data today then currentStock / adjustedDailySales data today
  else 9999

/-- Embedding of the `ForecastResult` interface. `predictedRunoutDate` is a
day index; `suggestedReorderQuantity` is integral (`Math.ceil` then
`Math.max`). -/
structure ForecastResult where
  predictedRunoutDate : ℤ
  suggestedReorderQuantity : ℤ
  confidence : ℝ
  dailyAverageSales : ℚ
  seasonalFactor : ℚ

/-- Embedding of `predictStockNeeds`. The JS source reads the clock
(`new Date()`) both for the seasonal factor and for the runout date; both
reads are the explicit `today` parameter here. -/
noncomputable def predictStockNeeds (salesHistory : List SalesDataPoint) (currentStock : ℚ)
    (leadTimeDays safetyStockDays : ℤ) (today : ℤ) : ForecastResult :=
  let runoutDate := today + ⌊daysUntilStockout salesHistory currentStock today⌋
  let reorderDays := leadTimeDays + safetyStockDays
  let suggested := ⌈adjustedDailySales salesHistory today * (reorderDays : ℚ)⌉
  { predictedRunoutDate := runoutDate
    suggestedReorderQuantity := max suggested 10
    confidence := calculateConfidence salesHistory
    dailyAverageSales := adjustedDailySales salesHistory today
    seasonalFactor := calculateSeasonalFactor salesHistory today }

/-! Service layer: embedding of `src/services/forecasting-service.ts`. All
database tables are abstracted into an `Env` record giving one user's view of
the store; the per-product `products` lookup can additionally fail
transiently, which is what the `try/catch` of `getRestockRecommendations`
protects against. -/

/-- The four urgency labels. -/
inductive Urgency where
  | critical
  | high
  | medium
  | low
deriving DecidableEq

/-- The `urgencyOrder` rank map used by the batch sort. -/
def urgencyRank : Urgency → ℤ
  | .critical => 0
  | .high => 1
  | .medium => 2
  | .low => 3

/-- The urgency classification appearing in `predictSingleProduct` (identical
thresholds also appear in `generateRestockRecommendations`). -/
def classifyUrgency (daysUntilRunout : ℤ) : Urgency :=
  if daysUntilRunout ≤ 3 then .critical
  else if daysUntilRunout ≤ 7 then .high
  else if daysUntilRunout ≤ 14 then .medium
  else .low

/-- Embedding of the `StockForecast` interface. `predicted_runout_date` is a
day index (the source serialises it as an ISO string). -/
structure StockForecast where
  product_id : String
  product_name : String
  current_stock : ℚ
  predicted_runout_date : ℤ
  days_until_runout : ℤ
  suggested_reorder_quantity : ℤ
  confidence : ℝ
  urgency : Urgency
  should_reorder : Bool

/-- A row of the `products` table as selected by the service. -/
structure Product where
  id : String
  name : String
  quantity : ℚ
  low_stock_threshold : ℚ
deriving DecidableEq

/-- The columns of a `reorder_rules` row read by `predictSingleProduct`. Both
columns are plain numbers (the tool layer stores `lead_time_days` defaulting
to 7 and `safety_stock` defaulting to 0). -/
structure ReorderRule where
  lead_time_days : ℤ
  safety_stock : ℤ
deriving DecidableEq

/-- One user's view of the external store: catalog rows, the sales-history
provider (product id and lookback days to a daily series), stored reorder
rules, and a flag recording which per-product catalog lookups fail
transiently (a failed lookup surfaces as the `Product not found` error). -/
structure Env where
  products : List Product
  history : String → ℕ → List SalesDataPoint
  rules : String → Option ReorderRule
  productFetchFails : String → Bool

/-- The lead time used by `predictSingleProduct`:
`reorderRule?.lead_time_days || 7`. JS `||` takes the fallback when the left
side is falsy, i.e. when there is no rule or the stored value is `0`. -/
def effectiveLeadTime (rule : Option ReorderRule) : ℤ :=
  match rule with
  | none => 7
  | some r => if r.lead_time_days = 0 then 7 else r.lead_time_days

/-- The safety-stock days used by `predictSingleProduct`:
`reorderRule?.safety_stock ? Math.ceil(safety_stock / 10) : 3`. The ternary
takes the fallback `3` when there is no rule or the stored unit quantity is
`0`; otherwise the stored units are converted to days via
`ceil(safety_stock / 10)`. -/
def effectiveSafetyStockDays (rule : Option ReorderRule) : ℤ :=
  match rule with
  | none => 3
  | some r => if r.safety_stock = 0 then 3 else ⌈(r.safety_stock : ℚ) / 10⌉

/-- Embedding of `ForecastingService.predictSingleProduct`. The `daysAhead`
parameter is present in the source signature but never read by the body; the
sales-history lookback is the hard-coded `30`. `now` embeds the clock reads
(`new Date()` inside the prediction and `Date.now()` for the runout
distance). -/
noncomputable def predictSingleProduct (env : Env) (productId : String) (daysAhead : ℕ)
    (now : ℤ) : Except String StockForecast :=
  if env.productFetchFails productId then .error "Product not found"
  else
    match env.products.find? (fun p => p.id = productId) with
    | none => .error "Product not found"
    | some product =>
      let salesHistory := env.history productId 30
      let reorderRule := env.rules productId
      let leadTimeDays := effectiveLeadTime reorderRule
      let safetyStockDays := effectiveSafetyStockDays reorderRule
      let forecast := predictStockNeeds salesHistory product.quantity leadTimeDays
        safetyStockDays now
      let daysUntilRunout := max 0 (forecast.predictedRunoutDate - now)
      .ok
        { product_id := product.id
          product_name := product.name
          current_stock := product.quantity
          predicted_runout_date := forecast.predictedRunoutDate
          days_until_runout := daysUntilRunout
          suggested_reorder_quantity := forecast.suggestedReorderQuantity
          confidence := forecast.confidence
          urgency := classifyUrgency daysUntilRunout
          should_reorder := decide (daysUntilRunout ≤ leadTimeDays) }

/-- The `timePeriod` option values of `getRestockRecommendations`. -/
inductive TimePeriod where
  | week
  | month
deriving DecidableEq

/-- The options record of `getRestockRecommendations` (`includeAllProducts`
is declared in the source but never read). -/
structure RestockOptions where
  includeAllProducts : Bool
  onlyLowStock : Bool
  timePeriod : Option TimePeriod
deriving DecidableEq

/-- The `daysAhead` horizon derived from `options.timePeriod || 'week'`. -/
def restockDaysAhead (options : RestockOptions) : ℕ :=
  if options.timePeriod.getD .week = .week then 7 else 30

/-- The product list `getRestockRecommendations` iterates over: the catalog,
filtered to low-stock rows when `onlyLowStock` is set. -/
def filteredProducts (env : Env) (options : RestockOptions) : List Product :=
  if options.onlyLowStock then
    env.products.filter (fun p => p.quantity ≤ p.low_stock_threshold)
  else env.products

/-- The batch sort order: ascending `urgencyOrder` rank (the comparator
`urgencyOrder[a.urgency] - urgencyOrder[b.urgency]`). -/
def urgencyLe (a b : StockForecast) : Prop :=
  urgencyRank a.urgency ≤ urgencyRank b.urgency

instance : DecidableRel urgencyLe := fun a b =>
  inferInstanceAs (Decidable (urgencyRank a.urgency ≤ urgencyRank b.urgency))

instance : IsTotal StockForecast urgencyLe :=
  ⟨fun a b => le_total (urgencyRank a.urgency) (urgencyRank b.urgency)⟩

instance : IsTrans StockForecast urgencyLe :=
  ⟨fun _ _ _ hab hbc => le_trans hab hbc⟩

/-- The forecasts accumulated by the `for` loop of
`getRestockRecommendations`: each product is forecast and a failing product
is skipped by the `try/catch` (the error is only logged). -/
noncomputable def rawForecasts (env : Env) (options : RestockOptions) (now : ℤ) :
    List StockForecast :=
  (filteredProducts env options).filterMap
    (fun product => (predictSingleProduct env product.id (restockDaysAhead options) now).toOption)

/-- Embedding of `ForecastingService.getRestockRecommendations`: fetch and
filter the catalog, forecast each product skipping per-product failures, then
sort by urgency rank. JS `Array.prototype.sort` is a stable sort, embedded as
`List.insertionSort` (which is stable). -/
noncomputable def getRestockRecommendations (env : Env) (options : RestockOptions)
    (now : ℤ) : List StockForecast :=
  let products := filteredProducts env options
  if products = [] then []
  else (rawForecasts env options now).insertionSort urgencyLe

/-! Concrete fixtures used by witnesses, counterexamples and scenario
claims. -/

/-- Thirty consecutive days with constant quantity 10 (Scenario A). -/
def series30 : List SalesDataPoint := (List.range 30).map (fun i => ⟨i, 10⟩)

/-- Seven consecutive days with zero sales: quantities are all nonnegative,
and the first-half mean (the divisor of the trend relative-change division)
is 0. -/
def exZ7 : List SalesDataPoint := (List.range 7).map (fun i => ⟨i, 0⟩)

/-- Fourteen points, every one on weekday 0, with positive quantity. -/
def ex14 : List SalesDataPoint := (List.range 14).map (fun i => ⟨7 * i, 10⟩)

/-- One week of one unit sold per day. -/
def week1 : List SalesDataPoint := (List.range 7).map (fun i => ⟨i, 1⟩)

/-- Environment for Scenario A: a single product with 50 units in stock,
the constant 30-day history, and no reorder rule (so the defaults
`leadTimeDays = 7`, `safetyStockDays = 3` apply). -/
def env8 : Env :=
  { products := [⟨"P", "Prod", 50, 0⟩]
    history := fun pid _ => if pid = "P" then series30 else []
    rules := fun _ => none
    productFetchFails := fun _ => false }

/-- Environment with two products where the per-product lookup of product
`A` fails transiently and product `B` has no sales history. -/
def envC2 : Env :=
  { products := [⟨"A", "Alpha", 5, 0⟩, ⟨"B", "Beta", 20, 0⟩]
    history := fun _ _ => []
    rules := fun _ => none
    productFetchFails := fun s => s == "A" }

/-- Environment with two products of equal (low) urgency but different
runout distances: product `A` never runs out (sentinel 9999) and product
`B` runs out in 20 days; the catalog lists `A` first. -/
def envC3 : Env :=
  { products := [⟨"A", "Alpha", 20, 0⟩, ⟨"B", "Beta", 20, 0⟩]
    history := fun pid _ => if pid = "B" then week1 else []
    rules := fun _ => none
    productFetchFails := fun _ => false }

/-- The ordering claimed for the batch output: ascending urgency rank with
ties broken by ascending `days_until_runout` (this is the claimed ordering,
written from the specification; the source comparator reads only the
urgency). -/
def urgencyDaysLe (a b : StockForecast) : Prop :=
  urgencyRank a.urgency < urgencyRank b.urgency ∨
    (urgencyRank a.urgency = urgencyRank b.urgency ∧
      a.days_until_runout ≤ b.days_until_runout)

instance : DecidableRel urgencyDaysLe := fun a b =>
  inferInstanceAs (Decidable (_ ∨ _))

/-! Helper lemmas about nonnegativity and bounds of the engine outputs. -/

lemma quantitySum_nonneg {l : List SalesDataPoint} (h : ∀ p ∈ l, 0 ≤ p.quantity) :
    0 ≤ (l.map (·.quantity)).sum := by
  apply List.sum_nonneg
  intro x hx
  obtain ⟨p, hp, rfl⟩ := List.mem_map.mp hx
  exact h p hp

lemma calculateMovingAverage_nonneg {data : List SalesDataPoint} (w : ℕ)
    (h : ∀ p ∈ data, 0 ≤ p.quantity) : 0 ≤ calculateMovingAverage data w := by
  unfold calculateMovingAverage
  split
  · exact le_refl 0
  · exact div_nonneg
      (quantitySum_nonneg (fun p hp => h p (List.drop_subset _ _ hp)))
      (Nat.cast_nonneg _)

lemma dayAverage_nonneg {data : List SalesDataPoint} (i : ℕ)
    (h : ∀ p ∈ data, 0 ≤ p.quantity) : 0 ≤ dayAverage data i := by
  unfold dayAverage
  split
  · exact div_nonneg
      (quantitySum_nonneg (fun p hp => h p (List.mem_of_mem_filter hp)))
      (Nat.cast_nonneg _)
  · exact le_refl 0

lemma calculateSeasonalFactor_nonneg {data : List SalesDataPoint} (today : ℤ)
    (h : ∀ p ∈ data, 0 ≤ p.quantity) : 0 ≤ calculateSeasonalFactor data today := by
  unfold calculateSeasonalFactor
  split
  · exact zero_le_one
  · dsimp only
    split_ifs with hpos
    · exact div_nonneg (dayAverage_nonneg _ h) (le_of_lt hpos)
    · exact zero_le_one

lemma trendFactor_pos (t : Trend) : 0 < trendFactor t := by
  cases t <;> norm_num [trendFactor]

lemma adjustedDailySales_nonneg {data : List SalesDataPoint} (today : ℤ)
    (h : ∀ p ∈ data, 0 ≤ p.quantity) : 0 ≤ adjustedDailySales data today :=
  mul_nonneg
    (mul_nonneg (calculateMovingAverage_nonneg 7 h) (calculateSeasonalFactor_nonneg today h))
    (le_of_lt (trendFactor_pos _))

lemma calculateConfidence_bounds (data : List SalesDataPoint) :
    0.1 ≤ calculateConfidence data ∧ calculateConfidence data ≤ 0.95 := by
  unfold calculateConfidence
  split_ifs
  · norm_num
  · norm_num
  · norm_num
  · constructor
    · exact le_trans (by norm_num) (le_max_left _ _)
    · exact max_le (by norm_num) (min_le_left _ _)

lemma adjustedDailySales_nil (t : ℤ) : adjustedDailySales [] t = 0 := by
  simp [adjustedDailySales, calculateMovingAverage, calculateSeasonalFactor, detectTrend,
    trendFactor]

lemma daysUntilStockout_nil (stock : ℚ) (t : ℤ) : daysUntilStockout [] stock t = 9999 := by
  simp [daysUntilStockout, adjustedDailySales_nil]

lemma predictStockNeeds_nil (stock : ℚ) (lead safety now : ℤ) :
    predictStockNeeds [] stock lead safety now =
      { predictedRunoutDate := now + 9999
        suggestedReorderQuantity := 10
        confidence := 0.1
        dailyAverageSales := 0
        seasonalFactor := 1 } := by
  unfold predictStockNeeds
  dsimp only
  rw [daysUntilStockout_nil, adjustedDailySales_nil]
  simp only [ForecastResult.mk.injEq]
  refine ⟨?_, ?_, rfl, trivial, rfl⟩
  · rw [show ⌊(9999 : ℚ)⌋ = (9999 : ℤ) from by decide]
  · rw [zero_mul, Int.ceil_zero]
    decide

/-! Claims. -/

/-- C4: for every possible sales series, the confidence lies in `[0.1, 0.95]`:
`0.1` for an empty series, `0.4` for fewer than 7 points, `0.6` for fewer
than 30, and otherwise the clamp of `0.95 - CV * 0.35` into `[0.6, 0.95]`
with `CV` the coefficient of variation (guarded to `1` when the mean is not
positive). -/
theorem calculateConfidence_tiers_and_bounds (data : List SalesDataPoint) :
    (0.1 ≤ calculateConfidence data ∧ calculateConfidence data ≤ 0.95) ∧
    (data.length = 0 → calculateConfidence data = 0.1) ∧
    (data.length ≠ 0 → data.length < 7 → calculateConfidence data = 0.4) ∧
    (7 ≤ data.length → data.length < 30 → calculateConfidence data = 0.6) ∧
    (30 ≤ data.length → calculateConfidence data =
      max 0.6 (min 0.95 (0.95 - coefficientOfVariation data * 0.35))) := by
  refine ⟨calculateConfidence_bounds data, ?_, ?_, ?_, ?_⟩
  · intro h1
    unfold calculateConfidence
    split_ifs <;> first | rfl | omega
  · intro h1 h2
    unfold calculateConfidence
    split_ifs <;> first | rfl | omega
  · intro h1 h2
    unfold calculateConfidence
    split_ifs <;> first | rfl | omega
  · intro h1
    unfold calculateConfidence
    split_ifs <;> first | rfl | omega

/-- Witness for C4: the tier equations and the lower bound evaluated on
concrete series of length 0, 1, 7 and 30. -/
theorem calculateConfidence_tiers_witness :
    calculateConfidence [] = 0.1 ∧
    calculateConfidence [⟨0, 5⟩] = 0.4 ∧
    calculateConfidence ((List.range 7).map (fun i => ⟨i, 3⟩)) = 0.6 ∧
    0.1 ≤ calculateConfidence series30 :=
  ⟨(calculateConfidence_tiers_and_bounds []).2.1 rfl,
   (calculateConfidence_tiers_and_bounds [⟨0, 5⟩]).2.2.1 (by decide) (by decide),
   (calculateConfidence_tiers_and_bounds ((List.range 7).map (fun i => ⟨i, 3⟩))).2.2.2.1
     (by decide) (by decide),
   (calculateConfidence_tiers_and_bounds series30).1.1⟩

/-- C5: for every sales series, current stock, lead time and safety-stock
days, the suggested reorder quantity returned by `predictStockNeeds` is at
least 10. -/
theorem suggestedReorderQuantity_min_ten (data : List SalesDataPoint) (stock : ℚ)
    (lead safety today : ℤ) :
    (10 : ℤ) ≤ (predictStockNeeds data stock lead safety today).suggestedReorderQuantity := by
  simp only [predictStockNeeds]
  exact le_max_right _ _

/-- C1 (counterexample): on seven days of zero sales — quantities all
nonnegative — `detectTrend` executes its relative-change division with
divisor 0, so not every division performed by the engine is guarded against
a zero divisor. -/
theorem trendChange_division_unguarded :
    exZ7.all (fun p => decide (0 ≤ p.quantity)) = true ∧
    trendChangeDivisor exZ7 = some 0 := by decide

/-- C1 (amended): for every sales series with nonnegative quantities and
every stock, lead time and safety-stock days, `predictStockNeeds` returns
nonnegative `dailyAverageSales` and `seasonalFactor`, a reorder quantity of
at least 10, and a confidence in `[0.1, 0.95]`; the moving-average division
is guarded (its divisor, the recent-window length, is nonzero whenever the
series is nonempty). The trend relative-change division is the one division
not guarded — its zero-divisor case only selects the trend label and leaves
every returned numeric field finite and valid. -/
theorem predictStockNeeds_outputs_valid (data : List SalesDataPoint) (stock : ℚ)
    (lead safety today : ℤ) (h : ∀ p ∈ data, 0 ≤ p.quantity) :
    0 ≤ (predictStockNeeds data stock lead safety today).dailyAverageSales ∧
    0 ≤ (predictStockNeeds data stock lead safety today).seasonalFactor ∧
    (10 : ℤ) ≤ (predictStockNeeds data stock lead safety today).suggestedReorderQuantity ∧
    0.1 ≤ (predictStockNeeds data stock lead safety today).confidence ∧
    (predictStockNeeds data stock lead safety today).confidence ≤ 0.95 ∧
    (data ≠ [] → recentWindow data 7 ≠ []) := by
  refine ⟨?_, ?_, ?_, ?_, ?_, ?_⟩
  · simpa only [predictStockNeeds] using adjustedDailySales_nonneg today h
  · simpa only [predictStockNeeds] using calculateSeasonalFactor_nonneg today h
  · simp only [predictStockNeeds]
    exact le_max_right _ _
  · simpa only [predictStockNeeds] using (calculateConfidence_bounds data).1
  · simpa only [predictStockNeeds] using (calculateConfidence_bounds data).2
  · intro hne
    have h2 : 0 < (recentWindow data 7).length := by
      unfold recentWindow
      rw [List.length_drop]
      have := List.length_pos.mpr hne
      omega
    exact List.ne_nil_of_length_pos h2

/-- Witness for C1: the amended validity conjunction evaluated on the
zero-sales week. -/
theorem predictStockNeeds_outputs_valid_witness :
    0 ≤ (predictStockNeeds exZ7 100 7 3 0).dailyAverageSales ∧
    (10 : ℤ) ≤ (predictStockNeeds exZ7 100 7 3 0).suggestedReorderQuantity :=
  ⟨(predictStockNeeds_outputs_valid exZ7 100 7 3 0 (by decide)).1,
   (predictStockNeeds_outputs_valid exZ7 100 7 3 0 (by decide)).2.2.1⟩

/-- C6 (counterexample): fourteen positive-quantity points all falling on
weekday 0 while the reference day has weekday 1 make the seasonal factor of
the returned forecast exactly 0 — not strictly positive as claimed. -/
theorem seasonalFactor_zero_possible :
    ex14.all (fun p => decide (0 ≤ p.quantity)) = true ∧
    ¬ (0 < (predictStockNeeds ex14 100 7 3 1).seasonalFactor) := by decide

/-- C6 (amended): for every sales series with nonnegative quantities, the
seasonal factor of the forecast returned by `predictStockNeeds` is
nonnegative (it can be exactly 0). -/
theorem seasonalFactor_nonneg (data : List SalesDataPoint) (stock : ℚ)
    (lead safety today : ℤ) (h : ∀ p ∈ data, 0 ≤ p.quantity) :
    0 ≤ (predictStockNeeds data stock lead safety today).seasonalFactor := by
  simpa only [predictStockNeeds] using calculateSeasonalFactor_nonneg today h

/-- Witness for C6: the nonnegativity evaluated on the weekday-0 series. -/
theorem seasonalFactor_nonneg_witness :
    0 ≤ (predictStockNeeds ex14 100 7 3 1).seasonalFactor :=
  seasonalFactor_nonneg ex14 100 7 3 1 (by decide)

lemma except_toOption_eq_some {ε α : Type} {x : Except ε α} {a : α} :
    x.toOption = some a ↔ x = .ok a := by
  cases x <;> simp [Except.toOption]

lemma predictSingleProduct_ok_id {env : Env} {pid : String} {d : ℕ} {now : ℤ}
    {f : StockForecast} (h : predictSingleProduct env pid d now = .ok f) :
    f.product_id = pid := by
  unfold predictSingleProduct at h
  split at h
  · exact Except.noConfusion h
  · split at h
    · exact Except.noConfusion h
    · rename_i product hfind
      have hpid : product.id = pid := by simpa using List.find?_some hfind
      injection h with h
      subst h
      exact hpid

lemma mem_rawForecasts {env : Env} {options : RestockOptions} {now : ℤ}
    {f : StockForecast} :
    f ∈ rawForecasts env options now ↔
      ∃ q ∈ filteredProducts env options,
        predictSingleProduct env q.id (restockDaysAhead options) now = .ok f := by
  unfold rawForecasts
  rw [List.mem_filterMap]
  constructor
  · rintro ⟨q, hq, hsome⟩
    exact ⟨q, hq, except_toOption_eq_some.mp hsome⟩
  · rintro ⟨q, hq, hok⟩
    exact ⟨q, hq, except_toOption_eq_some.mpr hok⟩

lemma mem_getRestockRecommendations {env : Env} {options : RestockOptions} {now : ℤ}
    {f : StockForecast} :
    f ∈ getRestockRecommendations env options now ↔ f ∈ rawForecasts env options now := by
  unfold getRestockRecommendations
  dsimp only
  split_ifs with hp
  · simp [rawForecasts, hp]
  · exact List.mem_insertionSort urgencyLe

/-- C2: in the batch `getRestockRecommendations`, a product whose
per-product forecast fails contributes nothing to the result (no returned
forecast carries its id), and every product whose forecast succeeds still
has its forecast in the returned list — one failure never aborts the
batch. -/
theorem restock_batch_isolates_failures (env : Env) (options : RestockOptions) (now : ℤ)
    (p : Product) (hp : p ∈ filteredProducts env options)
    (hfail : (predictSingleProduct env p.id (restockDaysAhead options) now).toOption = none) :
    (∀ f ∈ getRestockRecommendations env options now, f.product_id ≠ p.id) ∧
    (∀ q ∈ filteredProducts env options, ∀ f,
      predictSingleProduct env q.id (restockDaysAhead options) now = .ok f →
      f ∈ getRestockRecommendations env options now) := by
  constructor
  · intro f hf hid
    obtain ⟨q, hq, hok⟩ := mem_rawForecasts.mp (mem_getRestockRecommendations.mp hf)
    have hqid : f.product_id = q.id := predictSingleProduct_ok_id hok
    rw [hqid] at hid
    rw [hid] at hok
    rw [hok] at hfail
    exact Option.noConfusion hfail
  · intro q hq f hok
    exact mem_getRestockRecommendations.mpr (mem_rawForecasts.mpr ⟨q, hq, hok⟩)

/-- Witness for C2: in the two-product environment where the lookup of
product `A` fails, the forecast of product `B` — explicitly spelled out —
is still in the batch output. -/
theorem restock_batch_isolates_failures_witness :
    ({ product_id := "B"
       product_name := "Beta"
       current_stock := 20
       predicted_runout_date := 9999
       days_until_runout := 9999
       suggested_reorder_quantity := 10
       confidence := 0.1
       urgency := .low
       should_reorder := false } : StockForecast)
      ∈ getRestockRecommendations envC2 ⟨false, false, none⟩ 0 :=
  (restock_batch_isolates_failures envC2 ⟨false, false, none⟩ 0 ⟨"A", "Alpha", 5, 0⟩
      (by decide) rfl).2
    ⟨"B", "Beta", 20, 0⟩ (by decide) _ rfl

/-- C3 (counterexample): in the two-product environment with two
equal-urgency (low) forecasts, the batch output lists the 9999-day runout
before the 20-day runout, so equal-urgency results are not in ascending
`days_until_runout` order. -/
theorem restock_not_sorted_by_runout_ties :
    ¬ List.Sorted urgencyDaysLe (getRestockRecommendations envC3 ⟨false, false, none⟩ 0) := by
  decide

/-- C3 (amended): the batch output is sorted ascending by urgency rank, and
results with equal urgency keep their pre-sort (catalog iteration) order —
the stable sort never compares `days_until_runout`, so ties are in encounter
order rather than ascending runout order. -/
theorem restock_sorted_by_urgency_stable (env : Env) (options : RestockOptions) (now : ℤ) :
    List.Sorted urgencyLe (getRestockRecommendations env options now) ∧
    ∀ u : Urgency,
      (getRestockRecommendations env options now).filter (fun f => decide (f.urgency = u))
        = (rawForecasts env options now).filter (fun f => decide (f.urgency = u)) := by
  unfold getRestockRecommendations
  dsimp only
  split_ifs with hp
  · exact ⟨List.sorted_nil, fun u => by simp [rawForecasts, hp]⟩
  · constructor
    · exact List.sorted_insertionSort urgencyLe _
    · intro u
      set raw := rawForecasts env options now with hraw
      set pfn := fun f : StockForecast => decide (f.urgency = u) with hpfn
      have hperm : (raw.insertionSort urgencyLe).Perm raw := List.perm_insertionSort _ _
      have hc : (raw.filter pfn).Pairwise urgencyLe := by
        apply List.pairwise_of_forall_mem_list
        intro a ha b hb
        have ha2 : a.urgency = u := of_decide_eq_true (List.mem_filter.mp ha).2
        have hb2 : b.urgency = u := of_decide_eq_true (List.mem_filter.mp hb).2
        unfold urgencyLe
        rw [ha2, hb2]
      have hfself : (raw.filter pfn).filter pfn = raw.filter pfn :=
        List.filter_eq_self.mpr (fun a ha => (List.mem_filter.mp ha).2)
      have hsub : List.Sublist (raw.filter pfn) (raw.insertionSort urgencyLe) :=
        List.sublist_insertionSort hc (List.filter_sublist _)
      have h2 : List.Sublist (raw.filter pfn) ((raw.insertionSort urgencyLe).filter pfn) := by
        have h3 := hsub.filter pfn
        rwa [hfself] at h3
      have hlen : ((raw.insertionSort urgencyLe).filter pfn).length
          = (raw.filter pfn).length := (hperm.filter pfn).length_eq
      exact (h2.eq_of_length hlen.symm).symm

/-- C9 (counterexample): with a stored rule whose `lead_time_days` is 0 the
service does not use the rule value 0 but the default 7, and with a stored
rule whose `safety_stock` is 0 it does not use `ceil(0 / 10) = 0` but the
default 3 — JS falsiness of `0` overrides the stored rule. -/
theorem effective_rule_falsy_zero :
    effectiveLeadTime (some ⟨0, 20⟩) ≠ (ReorderRule.mk 0 20).lead_time_days ∧
    effectiveSafetyStockDays (some ⟨5, 0⟩)
      ≠ ⌈((ReorderRule.mk 5 0).safety_stock : ℚ) / 10⌉ := by
  decide

/-- C9 (amended): with no stored rule the defaults 7 and 3 apply; with a
stored rule, `lead_time_days` is used exactly when it is nonzero (a stored
`0` falls back to 7), and `ceil(safety_stock / 10)` is used exactly when
`safety_stock` is nonzero (a stored `0` falls back to 3). -/
theorem effective_rule_defaults (r : ReorderRule) :
    (effectiveLeadTime none = 7 ∧ effectiveSafetyStockDays none = 3) ∧
    (r.lead_time_days ≠ 0 → effectiveLeadTime (some r) = r.lead_time_days) ∧
    (r.lead_time_days = 0 → effectiveLeadTime (some r) = 7) ∧
    (r.safety_stock ≠ 0 →
      effectiveSafetyStockDays (some r) = ⌈(r.safety_stock : ℚ) / 10⌉) ∧
    (r.safety_stock = 0 → effectiveSafetyStockDays (some r) = 3) := by
  refine ⟨⟨rfl, rfl⟩, ?_, ?_, ?_, ?_⟩ <;>
    intro h <;>
    simp [effectiveLeadTime, effectiveSafetyStockDays, h]

/-- Witness for C9: a rule with nonzero fields is used as stored. -/
theorem effective_rule_defaults_witness :
    effectiveLeadTime (some ⟨10, 25⟩) = (ReorderRule.mk 10 25).lead_time_days ∧
    effectiveSafetyStockDays (some ⟨10, 25⟩)
      = ⌈((ReorderRule.mk 10 25).safety_stock : ℚ) / 10⌉ :=
  ⟨(effective_rule_defaults ⟨10, 25⟩).2.1 (by decide),
   (effective_rule_defaults ⟨10, 25⟩).2.2.2.1 (by decide)⟩

/-- C10: the `timePeriod` option ('week' versus 'month') has no effect on
the batch output — the derived horizon only feeds the unused `daysAhead`
parameter of `predictSingleProduct`, whose history lookback is the
hard-coded 30 days. -/
theorem timePeriod_no_effect (env : Env) (now : ℤ) (inc low : Bool) :
    (∀ pid d e, predictSingleProduct env pid d now = predictSingleProduct env pid e now) ∧
    getRestockRecommendations env ⟨inc, low, some .week⟩ now
      = getRestockRecommendations env ⟨inc, low, some .month⟩ now :=
  ⟨fun _ _ _ => rfl, rfl⟩

/-- C7: for every product whose per-product lookup succeeds, whose sales
history is empty and which has no reorder rule (so the default lead time 7
and safety-stock days 3 apply), the engine output on the empty series has
confidence 0.1, daily average sales 0 and seasonal factor 1, and the
service forecast has the 9999-day sentinel runout, low urgency, and no
reorder advised. -/
theorem empty_series_degraded_forecast (env : Env) (pid : String) (daysAhead : ℕ)
    (now : ℤ) (stock : ℚ) (product : Product)
    (hfail : env.productFetchFails pid = false)
    (hfind : env.products.find? (fun p => p.id = pid) = some product)
    (hhist : env.history pid 30 = [])
    (hrule : env.rules pid = none) :
    (predictStockNeeds [] stock 7 3 now).confidence = 0.1 ∧
    (predictStockNeeds [] stock 7 3 now).dailyAverageSales = 0 ∧
    (predictStockNeeds [] stock 7 3 now).seasonalFactor = 1 ∧
    (predictSingleProduct env pid daysAhead now).toOption.map (·.days_until_runout)
      = some 9999 ∧
    (predictSingleProduct env pid daysAhead now).toOption.map (·.urgency) = some .low ∧
    (predictSingleProduct env pid daysAhead now).toOption.map (·.should_reorder)
      = some false := by
  have hstep : predictSingleProduct env pid daysAhead now =
      .ok { product_id := product.id
            product_name := product.name
            current_stock := product.quantity
            predicted_runout_date := now + 9999
            days_until_runout := 9999
            suggested_reorder_quantity := 10
            confidence := 0.1
            urgency := .low
            should_reorder := false } := by
    unfold predictSingleProduct
    rw [hfail]
    simp only [Bool.false_eq_true, if_false, hfind, hhist, hrule]
    rw [predictStockNeeds_nil]
    simp only [effectiveLeadTime, effectiveSafetyStockDays]
    norm_num [classifyUrgency]
  rw [predictStockNeeds_nil, hstep]
  refine ⟨rfl, rfl, rfl, rfl, rfl, rfl⟩

/-- Witness for C7: the empty-series forecast evaluated in a concrete
single-product environment. -/
theorem empty_series_degraded_forecast_witness :
    (predictStockNeeds [] 20 7 3 0).confidence = 0.1 ∧
    (predictStockNeeds [] 20 7 3 0).dailyAverageSales = 0 ∧
    (predictStockNeeds [] 20 7 3 0).seasonalFactor = 1 ∧
    (predictSingleProduct envC2 "B" 7 0).toOption.map (·.days_until_runout) = some 9999 ∧
    (predictSingleProduct envC2 "B" 7 0).toOption.map (·.urgency) = some .low ∧
    (predictSingleProduct envC2 "B" 7 0).toOption.map (·.should_reorder) = some false :=
  empty_series_degraded_forecast envC2 "B" 7 0 20 ⟨"B", "Beta", 20, 0⟩
    rfl (by decide) rfl rfl

/-- C8: thirty consecutive days of quantity 10, stock 50, lead time 7,
safety-stock days 3, at the pinned reference day 0: daily average sales 10,
seasonal factor 1, stable trend, five days until runout, suggested reorder
quantity 100, urgency high, and a reorder is advised. -/
theorem scenario_constant_thirty_days :
    (predictStockNeeds series30 50 7 3 0).dailyAverageSales = 10 ∧
    (predictStockNeeds series30 50 7 3 0).seasonalFactor = 1 ∧
    detectTrend series30 = .stable ∧
    (predictStockNeeds series30 50 7 3 0).suggestedReorderQuantity = 100 ∧
    (predictSingleProduct env8 "P" 7 0).toOption.map (·.days_until_runout) = some 5 ∧
    (predictSingleProduct env8 "P" 7 0).toOption.map (·.urgency) = some .high ∧
    (predictSingleProduct env8 "P" 7 0).toOption.map (·.should_reorder) = some true := by
  decide

end Vyapar
